import Mathlib

/-!
Verification of the tauV5 dew-point controller core.

The development shallowly embeds the decision engine of the controller:
dew-point mathematics and condensation-risk classification
(`TaupunktCalculator`), sensor calibration (`SensorCalibrator`), rolling
trend windows (`TrendAnalyzer` / `RingBuffer`), the alarm state machine
(`AlarmController`), the LED indicator update, and the rotating CSV
logger (`EnhancedDataLogger`).  Python floats are modelled as real
numbers (for the transcendental dew-point formula) or rationals (for the
purely arithmetic components); a float `NaN` is modelled as `none` of an
`Option` type; the SD-card filesystem is modelled as a map from path
names to file contents.
-/

namespace TauV5

/-! ### Dew-point mathematics
`TaupunktCalculator` (src/main.py lines 845-904, src/lib/core/calc.py
lines 53-77). -/

/-- Python `round(x, 2)`: rounding to two decimal places over `ℝ`. -/
noncomputable def round2 (x : ℝ) : ℝ := (round (x * 100) : ℝ) / 100

/-- The Magnus helper variable
`alpha = ((a * temp) / (b + temp)) + math.log(humidity / 100.0)`
with `a = 17.27`, `b = 237.7`. -/
noncomputable def magnusAlpha (temp humidity : ℝ) : ℝ :=
  (17.27 * temp) / (237.7 + temp) + Real.log (humidity / 100)

open Classical in
/-- `TaupunktCalculator.calculate_dew_point` (src/main.py 848-876).
`none` models the float `NaN` result.  The guard `humidity <= 0 or
humidity > 100` returns `NaN`; the two zero-denominator branches model
the `ZeroDivisionError` caught by the `try/except` (the `lib/core/calc.py`
copy lacks the `try`, a difference visible only at the exact
singularities). -/
noncomputable def calculate_dew_point (temp humidity : ℝ) : Option ℝ :=
  if humidity ≤ 0 ∨ 100 < humidity then none
  else if 237.7 + temp = 0 then none
  else if 17.27 - magnusAlpha temp humidity = 0 then none
  else some (round2 (237.7 * magnusAlpha temp humidity / (17.27 - magnusAlpha temp humidity)))

/-- `TaupunktCalculator.evaluate_condensation_risk` (src/main.py 878-904,
src/lib/core/calc.py 66-77).  An input `none` models a float `NaN`
(`math.isnan`).  Returns the `(risk_level, risk_message)` pair of the
source, levels and messages as the source's string literals. -/
def evaluate_condensation_risk (indoorDp outdoorTemp : Option ℚ) (threshold : ℚ) :
    String × String :=
  match indoorDp, outdoorTemp with
  | some dp, some t =>
    let diff := t - dp
    if threshold + 1 < diff then ("ok", "Kein Kondensationsrisiko")
    else if threshold < diff then ("warning", "Erhöhte Aufmerksamkeit")
    else if 0 < diff then ("critical", "Hohes Kondensationsrisiko!")
    else ("critical", "KONDENSATION MÖGLICH!")
  | _, _ => ("unknown", "Sensor-Daten ungültig")

lemma magnusAlpha_20_50_lb : (0.64717 : ℝ) < magnusAlpha 20 50 := by
  unfold magnusAlpha
  have h50 : ((50 : ℝ) / 100) = (2 : ℝ)⁻¹ := by norm_num
  rw [h50, Real.log_inv]
  have h1 : (0.64717 : ℝ) + 0.6931471808 < 17.27 * 20 / (237.7 + 20) := by norm_num
  linarith [Real.log_two_lt_d9]

lemma magnusAlpha_20_50_ub : magnusAlpha 20 50 < (0.64718 : ℝ) := by
  unfold magnusAlpha
  have h50 : ((50 : ℝ) / 100) = (2 : ℝ)⁻¹ := by norm_num
  rw [h50, Real.log_inv]
  have h1 : (17.27 * 20 / (237.7 + 20) : ℝ) < 0.64718 + 0.6931471803 := by norm_num
  linarith [Real.log_two_gt_d9]

lemma magnusAlpha_20_50_den_pos : (0 : ℝ) < 17.27 - magnusAlpha 20 50 := by
  linarith [magnusAlpha_20_50_ub]

lemma calculate_dew_point_pos (t h : ℝ) (h0 : 0 < h) (h100 : h ≤ 100)
    (hden : 237.7 + t ≠ 0) (hsing : 17.27 - magnusAlpha t h ≠ 0) :
    calculate_dew_point t h =
      some (round2 (237.7 * magnusAlpha t h / (17.27 - magnusAlpha t h))) := by
  unfold calculate_dew_point
  rw [if_neg (by push_neg; exact ⟨h0, h100⟩), if_neg hden, if_neg hsing]

/-- C2: `calculate_dew_point` returns `NaN` (modelled `none`) when
`humidity <= 0` or `humidity > 100` — in particular at humidity `0` and
`150` for every temperature — and on any domain error in the Magnus
evaluation (the `ZeroDivisionError` branches: an exactly-zero `b + t`
denominator or an exactly-singular `a - alpha`) rather than raising;
otherwise it returns the Magnus value `(b*alpha)/(a-alpha)`,
`alpha = (a*t)/(b+t) + ln(h/100)`, `a = 17.27`, `b = 237.7`, rounded to
two decimals; and `calculate_dew_point 20 50` lies strictly between 9
and 10. -/
theorem C2_calculate_dew_point_spec :
    (∀ t h : ℝ, h ≤ 0 ∨ 100 < h → calculate_dew_point t h = none) ∧
    (∀ t : ℝ, calculate_dew_point t 0 = none) ∧
    (∀ t : ℝ, calculate_dew_point t 150 = none) ∧
    (∀ t h : ℝ, 237.7 + t = 0 → calculate_dew_point t h = none) ∧
    (∀ t h : ℝ, 17.27 - magnusAlpha t h = 0 → calculate_dew_point t h = none) ∧
    (∀ t h : ℝ, 0 < h → h ≤ 100 → 237.7 + t ≠ 0 →
      17.27 - magnusAlpha t h ≠ 0 →
      calculate_dew_point t h =
        some (round2 (237.7 * magnusAlpha t h / (17.27 - magnusAlpha t h)))) ∧
    (∃ d : ℝ, calculate_dew_point 20 50 = some d ∧ 9 < d ∧ d < 10) := by
  refine ⟨?_, ?_, ?_, ?_, ?_, calculate_dew_point_pos, ?_⟩
  · intro t h hh
    unfold calculate_dew_point
    rw [if_pos hh]
  · intro t
    unfold calculate_dew_point
    rw [if_pos (Or.inl le_rfl)]
  · intro t
    unfold calculate_dew_point
    rw [if_pos (Or.inr (by norm_num))]
  · intro t h hden
    unfold calculate_dew_point
    by_cases hh : h ≤ 0 ∨ 100 < h
    · rw [if_pos hh]
    · rw [if_neg hh, if_pos hden]
  · intro t h hsing
    unfold calculate_dew_point
    by_cases hh : h ≤ 0 ∨ 100 < h
    · rw [if_pos hh]
    · rw [if_neg hh]
      by_cases hden : 237.7 + t = 0
      · rw [if_pos hden]
      · rw [if_neg hden, if_pos hsing]
  · have hlb := magnusAlpha_20_50_lb
    have hub := magnusAlpha_20_50_ub
    have hdenpos := magnusAlpha_20_50_den_pos
    refine ⟨round2 (237.7 * magnusAlpha 20 50 / (17.27 - magnusAlpha 20 50)), ?_, ?_, ?_⟩
    · exact calculate_dew_point_pos 20 50 (by norm_num) (by norm_num)
        (by norm_num) (ne_of_gt hdenpos)
    · have hv : (9.2 : ℝ) < 237.7 * magnusAlpha 20 50 / (17.27 - magnusAlpha 20 50) := by
        rw [lt_div_iff₀ hdenpos]
        nlinarith
      unfold round2
      have hr := abs_sub_round (237.7 * magnusAlpha 20 50 / (17.27 - magnusAlpha 20 50) * 100)
      rw [abs_le] at hr
      nlinarith [hr.1, hr.2]
    · have hv : 237.7 * magnusAlpha 20 50 / (17.27 - magnusAlpha 20 50) < (9.3 : ℝ) := by
        rw [div_lt_iff₀ hdenpos]
        nlinarith
      unfold round2
      have hr := abs_sub_round (237.7 * magnusAlpha 20 50 / (17.27 - magnusAlpha 20 50) * 100)
      rw [abs_le] at hr
      nlinarith [hr.1, hr.2]

/-- Witness for C2: the hypothesis-bearing parts applied at concrete
inputs — humidity 150 hits the `NaN` branch, temperature `-237.7` hits
the zero-denominator domain-error branch, and `(20, 50)` hits the
Magnus branch. -/
theorem C2_calculate_dew_point_spec_witness :
    calculate_dew_point 20 150 = none ∧
    calculate_dew_point (-237.7) 50 = none ∧
    calculate_dew_point 20 50 =
      some (round2 (237.7 * magnusAlpha 20 50 / (17.27 - magnusAlpha 20 50))) :=
  ⟨C2_calculate_dew_point_spec.1 20 150 (Or.inr (by norm_num)),
   C2_calculate_dew_point_spec.2.2.2.1 (-237.7) 50 (by norm_num),
   C2_calculate_dew_point_spec.2.2.2.2.2.1 20 50 (by norm_num) (by norm_num) (by norm_num)
     (ne_of_gt magnusAlpha_20_50_den_pos)⟩

/-- C3: `evaluate_condensation_risk` returns `unknown` on any `NaN`
(modelled `none`) input; otherwise with `diff = outdoor - indoor_dp` it
returns `ok` when `diff > threshold + 1`, `warning` when
`threshold < diff <= threshold + 1`, and `critical` otherwise, the two
critical sub-cases `diff > 0` and `diff <= 0` carrying distinct
messages; the four concrete probes at threshold 2 behave as claimed. -/
theorem C3_evaluate_condensation_risk_spec :
    (∀ (a : Option ℚ) (th : ℚ), evaluate_condensation_risk none a th =
      ("unknown", "Sensor-Daten ungültig")) ∧
    (∀ (a : Option ℚ) (th : ℚ), evaluate_condensation_risk a none th =
      ("unknown", "Sensor-Daten ungültig")) ∧
    (∀ dp t th : ℚ, th + 1 < t - dp →
      evaluate_condensation_risk (some dp) (some t) th = ("ok", "Kein Kondensationsrisiko")) ∧
    (∀ dp t th : ℚ, th < t - dp → t - dp ≤ th + 1 →
      evaluate_condensation_risk (some dp) (some t) th = ("warning", "Erhöhte Aufmerksamkeit")) ∧
    (∀ dp t th : ℚ, 0 < t - dp → t - dp ≤ th →
      evaluate_condensation_risk (some dp) (some t) th =
        ("critical", "Hohes Kondensationsrisiko!")) ∧
    (∀ dp t th : ℚ, t - dp ≤ 0 → t - dp ≤ th →
      evaluate_condensation_risk (some dp) (some t) th = ("critical", "KONDENSATION MÖGLICH!")) ∧
    (evaluate_condensation_risk (some 10) (some 15) 2 = ("ok", "Kein Kondensationsrisiko") ∧
     evaluate_condensation_risk (some 10) (some (25/2)) 2 = ("warning", "Erhöhte Aufmerksamkeit") ∧
     evaluate_condensation_risk (some 10) (some 11) 2 = ("critical", "Hohes Kondensationsrisiko!") ∧
     evaluate_condensation_risk (some 10) (some 10) 2 = ("critical", "KONDENSATION MÖGLICH!")) := by
  refine ⟨fun a th => ?_, fun a th => ?_, fun dp t th h1 => ?_, fun dp t th h1 h2 => ?_,
    fun dp t th h1 h2 => ?_, fun dp t th h1 h2 => ?_,
    ⟨by norm_num [evaluate_condensation_risk], by norm_num [evaluate_condensation_risk],
     by norm_num [evaluate_condensation_risk], by norm_num [evaluate_condensation_risk]⟩⟩
  · cases a <;> rfl
  · cases a <;> rfl
  · simp only [evaluate_condensation_risk]
    rw [if_pos h1]
  · simp only [evaluate_condensation_risk]
    rw [if_neg (by linarith), if_pos h1]
  · simp only [evaluate_condensation_risk]
    rw [if_neg (by linarith), if_neg (by linarith), if_pos h1]
  · simp only [evaluate_condensation_risk]
    rw [if_neg (by linarith), if_neg (by linarith), if_neg (by linarith)]

/-- Witness for C3: each branch of the risk classification exercised at
a concrete input (threshold 2). -/
theorem C3_evaluate_condensation_risk_spec_witness :
    evaluate_condensation_risk none (some 1) 2 = ("unknown", "Sensor-Daten ungültig") ∧
    evaluate_condensation_risk (some 1) none 2 = ("unknown", "Sensor-Daten ungültig") ∧
    evaluate_condensation_risk (some 10) (some 15) 2 = ("ok", "Kein Kondensationsrisiko") ∧
    evaluate_condensation_risk (some 10) (some (25/2)) 2 = ("warning", "Erhöhte Aufmerksamkeit") ∧
    evaluate_condensation_risk (some 10) (some 11) 2 = ("critical", "Hohes Kondensationsrisiko!") ∧
    evaluate_condensation_risk (some 10) (some 10) 2 = ("critical", "KONDENSATION MÖGLICH!") :=
  ⟨C3_evaluate_condensation_risk_spec.1 (some 1) 2,
   C3_evaluate_condensation_risk_spec.2.1 (some 1) 2,
   C3_evaluate_condensation_risk_spec.2.2.1 10 15 2 (by norm_num),
   C3_evaluate_condensation_risk_spec.2.2.2.1 10 (25/2) 2 (by norm_num) (by norm_num),
   C3_evaluate_condensation_risk_spec.2.2.2.2.1 10 11 2 (by norm_num) (by norm_num),
   C3_evaluate_condensation_risk_spec.2.2.2.2.2.1 10 10 2 (by norm_num) (by norm_num)⟩

/-! ### Trend analysis
`RingBuffer` and `TrendAnalyzer` (src/lib/core/trend.py, src/main.py
274-339).  The `collections.deque` with `maxlen = size` is modelled as a
list holding the newest samples last. -/

/-- The result record `TrendData(current, avg_5min, avg_15min, trend)`. -/
structure TrendData where
  current : ℚ
  avg5min : ℚ
  avg15min : ℚ
  trend : String
deriving DecidableEq

/-- `RingBuffer`: a fixed-size buffer (`deque` with `maxlen = size`). -/
structure RingBuffer where
  size : Nat
  data : List ℚ
deriving DecidableEq

/-- `RingBuffer.add`: `deque.append` evicts the oldest element once the
buffer holds `size` elements. -/
def RingBuffer.add (b : RingBuffer) (value : ℚ) : RingBuffer :=
  { b with data := (b.data ++ [value]).drop (b.data.length + 1 - b.size) }

/-- `RingBuffer.average`: `sum(data) / len(data) if data else 0.0`. -/
def RingBuffer.average (b : RingBuffer) : ℚ :=
  if b.data = [] then 0 else b.data.sum / b.data.length

/-- `RingBuffer.is_full`: `len(data) == size`. -/
def RingBuffer.isFull (b : RingBuffer) : Bool :=
  b.data.length == b.size

/-- `TrendAnalyzer`: the `buffers` dict has the fixed keys
`innen`/`aussen`, each with a `5min` and a `15min` ring buffer (the
`main.py` copy adds an unused `1h` buffer); the dict is never extended,
so it is embedded as one field per (sensor, horizon) pair. -/
structure TrendAnalyzer where
  measurementInterval : Nat
  innen5 : RingBuffer
  innen15 : RingBuffer
  aussen5 : RingBuffer
  aussen15 : RingBuffer
deriving DecidableEq

/-- `TrendAnalyzer.__init__`: each horizon window gets capacity
`max(1, horizon_seconds // measurement_interval)`. -/
def TrendAnalyzer.init (measurementInterval : Nat) : TrendAnalyzer :=
  { measurementInterval := measurementInterval
    innen5 := ⟨max 1 (300 / measurementInterval), []⟩
    innen15 := ⟨max 1 (900 / measurementInterval), []⟩
    aussen5 := ⟨max 1 (300 / measurementInterval), []⟩
    aussen15 := ⟨max 1 (900 / measurementInterval), []⟩ }

/-- The `sensor_name in self.buffers` lookup: the two known sensor ids
map to their (5min, 15min) buffer pair. -/
def TrendAnalyzer.bufs (a : TrendAnalyzer) (sensorName : String) :
    Option (RingBuffer × RingBuffer) :=
  if sensorName = "innen" then some (a.innen5, a.innen15)
  else if sensorName = "aussen" then some (a.aussen5, a.aussen15)
  else none

/-- `TrendAnalyzer.add_measurement`: pushes the value into every buffer
of a known sensor; a silent no-op for an unknown sensor id. -/
def TrendAnalyzer.addMeasurement (a : TrendAnalyzer) (sensorName : String) (value : ℚ) :
    TrendAnalyzer :=
  if sensorName = "innen" then
    { a with innen5 := a.innen5.add value, innen15 := a.innen15.add value }
  else if sensorName = "aussen" then
    { a with aussen5 := a.aussen5.add value, aussen15 := a.aussen15.add value }
  else a

/-- `TrendAnalyzer.get_trend_data` (src/lib/core/trend.py 43-60,
src/main.py 311-339).  The analyzer is returned alongside the result to
record that the method leaves the object unchanged. -/
def TrendAnalyzer.getTrendData (a : TrendAnalyzer) (sensorName : String) (currentValue : ℚ) :
    TrendAnalyzer × TrendData :=
  match a.bufs sensorName with
  | none => (a, ⟨currentValue, currentValue, currentValue, "stable"⟩)
  | some (b5, b15) =>
    let avg5 := b5.average
    let avg15 := b15.average
    let trend :=
      if ¬ b5.isFull then "initializing"
      else if avg5 + 1/2 < currentValue then "rising"
      else if currentValue < avg5 - 1/2 then "falling"
      else "stable"
    (a, ⟨currentValue, avg5, avg15, trend⟩)

lemma getTrendData_innen (a : TrendAnalyzer) (c : ℚ) :
    a.getTrendData "innen" c =
      (a, ⟨c, a.innen5.average, a.innen15.average,
        if ¬ a.innen5.isFull then "initializing"
        else if a.innen5.average + 1/2 < c then "rising"
        else if c < a.innen5.average - 1/2 then "falling"
        else "stable"⟩) := rfl

lemma getTrendData_aussen (a : TrendAnalyzer) (c : ℚ) :
    a.getTrendData "aussen" c =
      (a, ⟨c, a.aussen5.average, a.aussen15.average,
        if ¬ a.aussen5.isFull then "initializing"
        else if a.aussen5.average + 1/2 < c then "rising"
        else if c < a.aussen5.average - 1/2 then "falling"
        else "stable"⟩) := rfl

/-- C5: `get_trend_data` on an unknown sensor id yields the degenerate
sample `(current, current, current, stable)`; on each known sensor
(`innen` and `aussen`) it yields `(current, avg5, avg15, label)` with
the window means (0 when empty) and the label `initializing` when the
5-minute window is not at capacity, else `rising`/`falling`/`stable` by
the 0.5-degree band; the spec's probe — capacity-5 windows fed 20..24,
queried at 24 — reports `rising` with `avg_5min = 22 > 20`. -/
theorem C5_get_trend_data_spec :
    (∀ (a : TrendAnalyzer) (n : String) (c : ℚ), n ≠ "innen" → n ≠ "aussen" →
      (a.getTrendData n c).2 = ⟨c, c, c, "stable"⟩) ∧
    (∀ (a : TrendAnalyzer) (c : ℚ),
      (a.getTrendData "innen" c).2.avg5min = a.innen5.average ∧
      (a.getTrendData "innen" c).2.avg15min = a.innen15.average ∧
      (a.innen5.data = [] → (a.getTrendData "innen" c).2.avg5min = 0) ∧
      (a.innen5.data ≠ [] →
        (a.getTrendData "innen" c).2.avg5min = a.innen5.data.sum / a.innen5.data.length) ∧
      (¬ a.innen5.isFull → (a.getTrendData "innen" c).2.trend = "initializing") ∧
      (a.innen5.isFull → a.innen5.average + 1/2 < c →
        (a.getTrendData "innen" c).2.trend = "rising") ∧
      (a.innen5.isFull → c < a.innen5.average - 1/2 →
        (a.getTrendData "innen" c).2.trend = "falling") ∧
      (a.innen5.isFull → c ≤ a.innen5.average + 1/2 → a.innen5.average - 1/2 ≤ c →
        (a.getTrendData "innen" c).2.trend = "stable")) ∧
    (∀ (a : TrendAnalyzer) (c : ℚ),
      (a.getTrendData "aussen" c).2.avg5min = a.aussen5.average ∧
      (a.getTrendData "aussen" c).2.avg15min = a.aussen15.average ∧
      (a.aussen5.data = [] → (a.getTrendData "aussen" c).2.avg5min = 0) ∧
      (a.aussen5.data ≠ [] →
        (a.getTrendData "aussen" c).2.avg5min = a.aussen5.data.sum / a.aussen5.data.length) ∧
      (¬ a.aussen5.isFull → (a.getTrendData "aussen" c).2.trend = "initializing") ∧
      (a.aussen5.isFull → a.aussen5.average + 1/2 < c →
        (a.getTrendData "aussen" c).2.trend = "rising") ∧
      (a.aussen5.isFull → c < a.aussen5.average - 1/2 →
        (a.getTrendData "aussen" c).2.trend = "falling") ∧
      (a.aussen5.isFull → c ≤ a.aussen5.average + 1/2 → a.aussen5.average - 1/2 ≤ c →
        (a.getTrendData "aussen" c).2.trend = "stable")) ∧
    (((((((TrendAnalyzer.init 60).addMeasurement "innen" 20).addMeasurement "innen" 21
        ).addMeasurement "innen" 22).addMeasurement "innen" 23).addMeasurement "innen" 24
        ).getTrendData "innen" 24).2.trend = "rising" ∧
    (((((((TrendAnalyzer.init 60).addMeasurement "innen" 20).addMeasurement "innen" 21
        ).addMeasurement "innen" 22).addMeasurement "innen" 23).addMeasurement "innen" 24
        ).getTrendData "innen" 24).2.avg5min = 22 := by
  refine ⟨fun a n c hn1 hn2 => ?_, fun a c => ?_, fun a c => ?_, ?_, ?_⟩
  · simp only [TrendAnalyzer.getTrendData, TrendAnalyzer.bufs, if_neg hn1, if_neg hn2]
  · rw [getTrendData_innen]
    refine ⟨rfl, rfl, fun he => ?_, fun he => ?_, fun hf => ?_, fun hf hr => ?_,
      fun hf hfall => ?_, fun hf h1 h2 => ?_⟩
    · simp [RingBuffer.average, he]
    · simp [RingBuffer.average, he]
    · exact if_pos hf
    · rw [if_neg (not_not_intro hf)]
      exact if_pos hr
    · rw [if_neg (not_not_intro hf), if_neg (by linarith : ¬ a.innen5.average + 1/2 < c)]
      exact if_pos hfall
    · rw [if_neg (not_not_intro hf), if_neg (not_lt.mpr h1), if_neg (not_lt.mpr h2)]
  · rw [getTrendData_aussen]
    refine ⟨rfl, rfl, fun he => ?_, fun he => ?_, fun hf => ?_, fun hf hr => ?_,
      fun hf hfall => ?_, fun hf h1 h2 => ?_⟩
    · simp [RingBuffer.average, he]
    · simp [RingBuffer.average, he]
    · exact if_pos hf
    · rw [if_neg (not_not_intro hf)]
      exact if_pos hr
    · rw [if_neg (not_not_intro hf), if_neg (by linarith : ¬ a.aussen5.average + 1/2 < c)]
      exact if_pos hfall
    · rw [if_neg (not_not_intro hf), if_neg (not_lt.mpr h1), if_neg (not_lt.mpr h2)]
  · have hbuf : (((((((TrendAnalyzer.init 60).addMeasurement "innen" 20).addMeasurement
        "innen" 21).addMeasurement "innen" 22).addMeasurement "innen" 23).addMeasurement
        "innen" 24)).innen5 = ⟨5, [20, 21, 22, 23, 24]⟩ := rfl
    have havg : (⟨5, [20, 21, 22, 23, 24]⟩ : RingBuffer).average = 22 := by
      unfold RingBuffer.average
      rw [if_neg (by simp)]
      norm_num
    norm_num [getTrendData_innen, hbuf, havg, RingBuffer.isFull]
  · have hbuf : (((((((TrendAnalyzer.init 60).addMeasurement "innen" 20).addMeasurement
        "innen" 21).addMeasurement "innen" 22).addMeasurement "innen" 23).addMeasurement
        "innen" 24)).innen5 = ⟨5, [20, 21, 22, 23, 24]⟩ := rfl
    have havg : (⟨5, [20, 21, 22, 23, 24]⟩ : RingBuffer).average = 22 := by
      unfold RingBuffer.average
      rw [if_neg (by simp)]
      norm_num
    norm_num [getTrendData_innen, hbuf, havg, RingBuffer.isFull]

/-- Witness for C5: the hypothesis-bearing clauses applied concretely —
an unknown sensor id, an empty 5-minute window for each known sensor
(capacity 5 at interval 60, hence not full: `initializing`), and the
fed-window `rising` case. -/
theorem C5_get_trend_data_spec_witness :
    ((TrendAnalyzer.init 60).getTrendData "dach" 7).2 = ⟨7, 7, 7, "stable"⟩ ∧
    ((TrendAnalyzer.init 60).getTrendData "innen" 7).2.trend = "initializing" ∧
    ((TrendAnalyzer.init 60).getTrendData "aussen" 7).2.trend = "initializing" ∧
    (((((((TrendAnalyzer.init 60).addMeasurement "innen" 20).addMeasurement "innen" 21
        ).addMeasurement "innen" 22).addMeasurement "innen" 23).addMeasurement "innen" 24
        ).getTrendData "innen" 24).2.trend = "rising" :=
  ⟨C5_get_trend_data_spec.1 (TrendAnalyzer.init 60) "dach" 7 (by decide) (by decide),
   (C5_get_trend_data_spec.2.1 (TrendAnalyzer.init 60) 7).2.2.2.2.1 (by decide),
   (C5_get_trend_data_spec.2.2.1 (TrendAnalyzer.init 60) 7).2.2.2.2.1 (by decide),
   C5_get_trend_data_spec.2.2.2.1⟩

/-- C10: `get_trend_data` is a pure query — it returns the analyzer (its
buffers, their occupancy and capacity) unchanged for every sensor id and
current value. -/
theorem C10_get_trend_data_pure (a : TrendAnalyzer) (sensorName : String) (currentValue : ℚ) :
    (a.getTrendData sensorName currentValue).1 = a := by
  unfold TrendAnalyzer.getTrendData
  cases a.bufs sensorName with
  | none => rfl
  | some p => rfl

/-! ### Sensor calibration
`SensorCalibrator` (src/lib/core/calc.py 7-50, src/main.py 193-269).
The `calibrations` dict is an association list keyed by sensor name; the
persisted JSON document is modelled as the list of
`(sensor, temp_offset, humidity_offset)` records it serialises. -/

/-- `CalibrationData = namedtuple(temp_offset, humidity_offset)`. -/
structure CalibrationData where
  tempOffset : ℚ
  humidityOffset : ℚ
deriving DecidableEq

/-- `SensorCalibrator`: the in-memory calibration table. -/
structure SensorCalibrator where
  calibrations : List (String × CalibrationData)
deriving DecidableEq

/-- `self.calibrations.get(sensor_name)`: first entry with the key. -/
def lookupCal (l : List (String × CalibrationData)) (k : String) : Option CalibrationData :=
  (l.find? (fun p => p.1 == k)).map (fun p => p.2)

/-- Python dict assignment `d[k] = v`: replaces the existing entry in
place, or appends a new one. -/
def dictSet (l : List (String × CalibrationData)) (k : String) (v : CalibrationData) :
    List (String × CalibrationData) :=
  if l.any (fun p => p.1 == k) then
    l.map (fun p => if p.1 == k then (k, v) else p)
  else l ++ [(k, v)]

/-- `SensorCalibrator.apply_calibration`: adds the temperature offset and
clamps the offset humidity into `[0, 100]`; an unknown sensor id falls
back to the zero `CalibrationData(0.0, 0.0)` default. -/
def applyCalibration (c : SensorCalibrator) (sensorName : String) (temp humidity : ℚ) :
    ℚ × ℚ :=
  let cal := (lookupCal c.calibrations sensorName).getD ⟨0, 0⟩
  (temp + cal.tempOffset, max 0 (min 100 (humidity + cal.humidityOffset)))

/-- `SensorCalibrator.save_calibrations`: the persisted document, one
record per table entry with both offset fields. -/
def saveCalibrations (c : SensorCalibrator) : List (String × ℚ × ℚ) :=
  c.calibrations.map (fun p => (p.1, p.2.tempOffset, p.2.humidityOffset))

/-- `SensorCalibrator._load_calibrations`: `none` models an unreadable
file (`OSError`/`ValueError`), which falls back to the built-in default
table of zero offsets for the two known sensors. -/
def loadCalibrations (doc : Option (List (String × ℚ × ℚ))) : SensorCalibrator :=
  match doc with
  | some data => ⟨data.map (fun p => (p.1, ⟨p.2.1, p.2.2⟩))⟩
  | none => ⟨[("innen", ⟨0, 0⟩), ("aussen", ⟨0, 0⟩)]⟩

/-- `SensorCalibrator.set_calibration`: updates the in-memory table and
immediately persists the whole table (the document it writes is returned
alongside the new state). -/
def setCalibration (c : SensorCalibrator) (sensorName : String)
    (tempOffset humidityOffset : ℚ) : SensorCalibrator × List (String × ℚ × ℚ) :=
  let c1 : SensorCalibrator := ⟨dictSet c.calibrations sensorName ⟨tempOffset, humidityOffset⟩⟩
  (c1, saveCalibrations c1)

lemma lookupCal_map_set (l : List (String × CalibrationData)) (k : String)
    (v : CalibrationData) (h : l.any (fun p => p.1 == k) = true) :
    lookupCal (l.map (fun p => if p.1 == k then (k, v) else p)) k = some v := by
  induction l with
  | nil => cases h
  | cons p t ih =>
    simp only [List.map_cons]
    by_cases hp : (p.1 == k) = true
    · rw [if_pos hp]
      unfold lookupCal
      rw [List.find?_cons_of_pos _ (by simp)]
      rfl
    · rw [if_neg hp]
      have hb : (p.1 == k) = false := by simpa using hp
      unfold lookupCal
      rw [List.find?_cons, hb]
      have h' : t.any (fun p => p.1 == k) = true := by
        simpa [List.any_cons, hb] using h
      exact ih h'

lemma lookupCal_append_self (l : List (String × CalibrationData)) (k : String)
    (v : CalibrationData) (h : l.any (fun p => p.1 == k) = false) :
    lookupCal (l ++ [(k, v)]) k = some v := by
  induction l with
  | nil =>
    unfold lookupCal
    rw [List.nil_append, List.find?_cons_of_pos _ (by simp)]
    rfl
  | cons p t ih =>
    simp only [List.any_cons, Bool.or_eq_false_iff] at h
    rw [List.cons_append]
    unfold lookupCal
    rw [List.find?_cons, h.1]
    exact ih h.2

lemma lookupCal_dictSet_self (l : List (String × CalibrationData)) (k : String)
    (v : CalibrationData) : lookupCal (dictSet l k v) k = some v := by
  unfold dictSet
  by_cases h : l.any (fun p => p.1 == k)
  · rw [if_pos h]
    exact lookupCal_map_set l k v h
  · rw [if_neg h]
    exact lookupCal_append_self l k v (Bool.not_eq_true _ ▸ eq_false_of_ne_true h)

/-- C7: after `set_calibration(sensor, t_off, h_off)`,
`apply_calibration(sensor, temp, hum)` returns
`(temp + t_off, clamp(hum + h_off, 0, 100))` — concretely `set(s, 1, -2)`
then `apply(s, 20, 50) = (21, 48)` — an unknown sensor id is applied
with the zero-offset default, and the persisted table, when reloaded,
reproduces the same offsets. -/
theorem C7_calibration_round_trip :
    (∀ (c : SensorCalibrator) (n : String) (t h temp hum : ℚ),
      applyCalibration (setCalibration c n t h).1 n temp hum =
        (temp + t, max 0 (min 100 (hum + h)))) ∧
    (∀ c : SensorCalibrator,
      applyCalibration (setCalibration c "innen" 1 (-2)).1 "innen" 20 50 = (21, 48)) ∧
    (∀ (c : SensorCalibrator) (n : String) (temp hum : ℚ),
      lookupCal c.calibrations n = none →
      applyCalibration c n temp hum = (temp, max 0 (min 100 hum))) ∧
    (∀ c : SensorCalibrator, loadCalibrations (some (saveCalibrations c)) = c) := by
  have happly : ∀ (c : SensorCalibrator) (n : String) (t h temp hum : ℚ),
      applyCalibration (setCalibration c n t h).1 n temp hum =
        (temp + t, max 0 (min 100 (hum + h))) := by
    intro c n t h temp hum
    simp [applyCalibration, setCalibration, lookupCal_dictSet_self]
  refine ⟨happly, fun c => ?_, fun c n temp hum h => ?_, fun c => ?_⟩
  · rw [happly]
    norm_num
  · simp [applyCalibration, h]
  · show (⟨(c.calibrations.map _).map _⟩ : SensorCalibrator) = c
    rw [List.map_map]
    exact congrArg SensorCalibrator.mk (List.map_id c.calibrations)

/-- Witness for C7: the calibrator built from an empty table —
`set("innen", 1, -2)` then `apply("innen", 20, 50)` gives `(21, 48)`,
and the unknown id `aussen` is applied with the zero default. -/
theorem C7_calibration_round_trip_witness :
    applyCalibration (setCalibration ⟨[]⟩ "innen" 1 (-2)).1 "innen" 20 50 = (21, 48) ∧
    applyCalibration ⟨[]⟩ "aussen" 20 50 = (20, 50) :=
  ⟨C7_calibration_round_trip.2.1 ⟨[]⟩,
   (C7_calibration_round_trip.2.2.1 ⟨[]⟩ "aussen" 20 50 rfl).trans (by norm_num)⟩

/-! ### Alarm state machine
`AlarmController` (src/lib/ui/alarm.py 9-56) and the control loop's
alarm-evaluation step `_check_alarms` (src/main.py 1099-1113).
Observable side effects (buzzer commands, console prints, the alarm
screen) are collected in an effect list so that "no repeated side
effects" is statable. -/

/-- One observable side effect of the alarm subsystem. -/
inductive Effect where
  | printAlarm (alarmType message : String)
  | buzzerFreq (freq : Nat)
  | buzzerDuty (duty : Nat)
  | printStopped
  | showAlarmScreen (title message : String)
deriving DecidableEq

/-- `AlarmController`: `is_alarm_active`, `alarm_type`,
`alarm_start_time`, and the buzzer PWM (present or not, with its last
frequency/duty values). -/
structure AlarmController where
  isAlarmActive : Bool
  alarmType : Option String
  alarmStartTime : Int
  hasBuzzer : Bool
  buzzerFreqState : Nat
  buzzerDutyState : Nat
deriving DecidableEq

/-- `_play_condensation_alarm`: 1500 Hz at duty 32768 when a buzzer is
configured. -/
def playCondensationAlarm (c : AlarmController) : AlarmController × List Effect :=
  if c.hasBuzzer then
    ({ c with buzzerFreqState := 1500, buzzerDutyState := 32768 },
     [Effect.buzzerFreq 1500, Effect.buzzerDuty 32768])
  else (c, [])

/-- `_play_sensor_failure_alarm`: 2500 Hz at duty 16384. -/
def playSensorFailureAlarm (c : AlarmController) : AlarmController × List Effect :=
  if c.hasBuzzer then
    ({ c with buzzerFreqState := 2500, buzzerDutyState := 16384 },
     [Effect.buzzerFreq 2500, Effect.buzzerDuty 16384])
  else (c, [])

/-- `_play_generic_alarm`: 2000 Hz at duty 32768. -/
def playGenericAlarm (c : AlarmController) : AlarmController × List Effect :=
  if c.hasBuzzer then
    ({ c with buzzerFreqState := 2000, buzzerDutyState := 32768 },
     [Effect.buzzerFreq 2000, Effect.buzzerDuty 32768])
  else (c, [])

/-- `AlarmController.trigger_alarm`: early return when already active
with the same kind; otherwise records the new kind and start time,
prints, and plays the kind's tone profile. -/
def triggerAlarm (c : AlarmController) (alarmType message : String) (now : Int) :
    AlarmController × List Effect :=
  if c.isAlarmActive = true ∧ c.alarmType = some alarmType then (c, [])
  else
    let c1 := { c with
      isAlarmActive := true
      alarmType := some alarmType
      alarmStartTime := now }
    let pe :=
      if alarmType = "condensation" then playCondensationAlarm c1
      else if alarmType = "sensor_failure" then playSensorFailureAlarm c1
      else playGenericAlarm c1
    (pe.1, Effect.printAlarm alarmType message :: pe.2)

/-- `AlarmController.stop_alarm`: deactivates, clears the kind, and
silences the buzzer (`duty_u16(0)`) when one is configured. -/
def stopAlarm (c : AlarmController) : AlarmController × List Effect :=
  ({ c with
      isAlarmActive := false
      alarmType := none
      buzzerDutyState := if c.hasBuzzer then 0 else c.buzzerDutyState },
   (if c.hasBuzzer then [Effect.buzzerDuty 0] else []) ++ [Effect.printStopped])

lemma triggerAlarm_active (c : AlarmController) (k m : String) (now : Int) :
    (triggerAlarm c k m now).1.isAlarmActive = true ∧
    (triggerAlarm c k m now).1.alarmType = some k := by
  unfold triggerAlarm
  by_cases hg : c.isAlarmActive = true ∧ c.alarmType = some k
  · rw [if_pos hg]
    exact hg
  · rw [if_neg hg]
    dsimp only
    split_ifs <;>
      simp [playCondensationAlarm, playSensorFailureAlarm, playGenericAlarm] <;>
      split_ifs <;> simp

lemma triggerAlarm_noop (c : AlarmController) (k m : String) (now : Int)
    (h1 : c.isAlarmActive = true) (h2 : c.alarmType = some k) :
    triggerAlarm c k m now = (c, []) := by
  unfold triggerAlarm
  rw [if_pos ⟨h1, h2⟩]

/-- C6: triggering the same kind twice leaves the arbiter exactly as a
single call does and the second call produces no effects; any trigger
(in particular a switch from a different active kind) leaves the arbiter
`Active(kind)`; `stop_alarm` from any state yields `active = false`,
`kind = None`, and a silenced buzzer. -/
theorem C6_trigger_idempotent_stop_resets :
    (∀ (c : AlarmController) (k m : String) (now : Int),
      (triggerAlarm c k m now).1.isAlarmActive = true ∧
      (triggerAlarm c k m now).1.alarmType = some k) ∧
    (∀ (c : AlarmController) (k m m' : String) (now now' : Int),
      triggerAlarm (triggerAlarm c k m now).1 k m' now' = ((triggerAlarm c k m now).1, [])) ∧
    (∀ (c : AlarmController) (k k' m' : String) (now' : Int), k' ≠ k →
      c.isAlarmActive = true → c.alarmType = some k →
      (triggerAlarm c k' m' now').1.isAlarmActive = true ∧
      (triggerAlarm c k' m' now').1.alarmType = some k') ∧
    (∀ c : AlarmController,
      (stopAlarm c).1.isAlarmActive = false ∧
      (stopAlarm c).1.alarmType = none ∧
      (stopAlarm c).1.buzzerDutyState = if c.hasBuzzer then 0 else c.buzzerDutyState) := by
  refine ⟨triggerAlarm_active, fun c k m m' now now' => ?_,
    fun c k k' m' now' _ _ _ => triggerAlarm_active c k' m' now', fun c => ⟨rfl, rfl, rfl⟩⟩
  exact triggerAlarm_noop _ k m' now' (triggerAlarm_active c k m now).1
    (triggerAlarm_active c k m now).2

/-- Witness for C6: from the idle controller with a buzzer, triggering
`condensation` twice is a single activation, and switching to
`sensor_failure` while active on `condensation` takes effect. -/
theorem C6_trigger_idempotent_stop_resets_witness :
    (triggerAlarm (triggerAlarm ⟨false, none, 0, true, 0, 0⟩ "condensation" "m" 1).1
        "condensation" "m" 2) =
      ((triggerAlarm ⟨false, none, 0, true, 0, 0⟩ "condensation" "m" 1).1, []) ∧
    (triggerAlarm ⟨true, some "condensation", 1, true, 1500, 32768⟩ "sensor_failure" "m" 2
        ).1.alarmType = some "sensor_failure" :=
  ⟨C6_trigger_idempotent_stop_resets.2.1 ⟨false, none, 0, true, 0, 0⟩ "condensation" "m" "m" 1 2,
   (C6_trigger_idempotent_stop_resets.2.2.1 ⟨true, some "condensation", 1, true, 1500, 32768⟩
     "condensation" "sensor_failure" "m" 2 (by decide) rfl rfl).2⟩

/-! ### The control loop's alarm-evaluation step (`_check_alarms`) -/

/-- The slice of the per-cycle `complete_data` dict read by
`_check_alarms`: `risk_level`, `risk_message`, `t_in`, `t_out` (a missing
temperature is `None`). -/
structure CycleData where
  riskLevel : String
  riskMessage : String
  tIn : Option ℚ
  tOut : Option ℚ
deriving DecidableEq

/-- The condensation block of `_check_alarms` (src/main.py 1104-1108):
fires only when risk is `critical` AND the arbiter is not active at all;
shows the alarm screen when a display is configured. -/
def condensationStage (c : AlarmController) (hasDisplay : Bool) (d : CycleData) (now : Int) :
    AlarmController × List Effect :=
  if d.riskLevel = "critical" ∧ c.isAlarmActive = false then
    let t := triggerAlarm c "condensation" d.riskMessage now
    (t.1, t.2 ++ if hasDisplay then
      [Effect.showAlarmScreen "KONDENSATION" d.riskMessage] else [])
  else (c, [])

/-- The sensor-failure block of `_check_alarms` (src/main.py 1111-1113):
fires when a temperature is missing, unless already active with kind
`sensor_failure`. -/
def sensorFailureStage (c : AlarmController) (d : CycleData) (now : Int) :
    AlarmController × List Effect :=
  if (d.tIn = none ∨ d.tOut = none) ∧
     (c.isAlarmActive = false ∨ c.alarmType ≠ some "sensor_failure") then
    triggerAlarm c "sensor_failure" "Sensor-Ausfall erkannt" now
  else (c, [])

/-- `_check_alarms` (src/main.py 1099-1113): the condensation block runs
first, then the sensor-failure block on the updated arbiter state. -/
def checkAlarms (c : AlarmController) (hasDisplay : Bool) (d : CycleData) (now : Int) :
    AlarmController × List Effect :=
  let s1 := condensationStage c hasDisplay d now
  let s2 := sensorFailureStage s1.1 d now
  (s2.1, s1.2 ++ s2.2)

lemma sensorFailureStage_present (c : AlarmController) (d : CycleData) (now : Int)
    (h1 : d.tIn ≠ none) (h2 : d.tOut ≠ none) :
    sensorFailureStage c d now = (c, []) := by
  unfold sensorFailureStage
  rw [if_neg (fun hc => hc.1.elim h1 h2)]

lemma sensorFailureStage_missing (c : AlarmController) (d : CycleData) (now : Int)
    (hmiss : d.tIn = none ∨ d.tOut = none) :
    (sensorFailureStage c d now).1.isAlarmActive = true ∧
    (sensorFailureStage c d now).1.alarmType = some "sensor_failure" := by
  unfold sensorFailureStage
  by_cases hg : c.isAlarmActive = false ∨ c.alarmType ≠ some "sensor_failure"
  · rw [if_pos ⟨hmiss, hg⟩]
    exact triggerAlarm_active c "sensor_failure" "Sensor-Ausfall erkannt" now
  · rw [if_neg (fun hc => hg hc.2)]
    push_neg at hg
    exact ⟨by simpa using hg.1, hg.2⟩

/-- C1 counterexample: with the arbiter already `Active(sensor_failure)`
and a cycle whose risk is `critical` with both temperatures present, the
claim predicts a condensation trigger (`Active(condensation)`), but
`_check_alarms` leaves the arbiter entirely unchanged — the condensation
block is suppressed by ANY active alarm, not only by an active
condensation alarm. -/
theorem C1_check_alarms_counterexample :
    (checkAlarms ⟨true, some "sensor_failure", 0, false, 0, 0⟩ false
      ⟨"critical", "Hohes Kondensationsrisiko!", some 20, some 5⟩ 0).1 =
      ⟨true, some "sensor_failure", 0, false, 0, 0⟩ ∧
    (checkAlarms ⟨true, some "sensor_failure", 0, false, 0, 0⟩ false
      ⟨"critical", "Hohes Kondensationsrisiko!", some 20, some 5⟩ 0).1.alarmType ≠
      some "condensation" := by
  exact ⟨rfl, by decide⟩

/-- C1 amended: the condensation trigger fires only when risk is
`critical` and the arbiter is Idle (any already-active alarm — whatever
its kind — suppresses it, not only an active condensation alarm);
independently, when either temperature is missing the cycle always ends
with the arbiter `Active(sensor_failure)` (a no-op only when already
active with that kind), the sensor-failure block being evaluated second
and therefore determining the final kind when both fire. -/
theorem C1_check_alarms_amended :
    (∀ (c : AlarmController) (hd : Bool) (d : CycleData) (now : Int),
      d.riskLevel = "critical" → c.isAlarmActive = false →
      d.tIn ≠ none → d.tOut ≠ none →
      (checkAlarms c hd d now).1.isAlarmActive = true ∧
      (checkAlarms c hd d now).1.alarmType = some "condensation") ∧
    (∀ (c : AlarmController) (hd : Bool) (d : CycleData) (now : Int),
      c.isAlarmActive = true → d.tIn ≠ none → d.tOut ≠ none →
      (checkAlarms c hd d now).1 = c) ∧
    (∀ (c : AlarmController) (hd : Bool) (d : CycleData) (now : Int),
      d.tIn = none ∨ d.tOut = none →
      (checkAlarms c hd d now).1.isAlarmActive = true ∧
      (checkAlarms c hd d now).1.alarmType = some "sensor_failure") := by
  refine ⟨fun c hd d now hrisk hidle ht1 ht2 => ?_, fun c hd d now hact ht1 ht2 => ?_,
    fun c hd d now hmiss => ?_⟩
  · show ((sensorFailureStage (condensationStage c hd d now).1 d now).1.isAlarmActive = true ∧
      (sensorFailureStage (condensationStage c hd d now).1 d now).1.alarmType =
        some "condensation")
    rw [sensorFailureStage_present _ d now ht1 ht2]
    unfold condensationStage
    rw [if_pos ⟨hrisk, hidle⟩]
    exact triggerAlarm_active c "condensation" d.riskMessage now
  · show (sensorFailureStage (condensationStage c hd d now).1 d now).1 = c
    have hc : condensationStage c hd d now = (c, []) := by
      unfold condensationStage
      rw [if_neg (fun hg => by simp [hact] at hg)]
    rw [hc, sensorFailureStage_present c d now ht1 ht2]
  · exact sensorFailureStage_missing _ d now hmiss

/-- Witness for C1's amended theorem: from the idle arbiter a critical
cycle with both temperatures ends `Active(condensation)`; an active
generic alarm with both temperatures present is left unchanged; a cycle
missing `t_in` ends `Active(sensor_failure)`. -/
theorem C1_check_alarms_amended_witness :
    (checkAlarms ⟨false, none, 0, false, 0, 0⟩ false
      ⟨"critical", "m", some 20, some 5⟩ 3).1.alarmType = some "condensation" ∧
    (checkAlarms ⟨true, some "generic", 0, false, 0, 0⟩ false
      ⟨"critical", "m", some 20, some 5⟩ 3).1 = ⟨true, some "generic", 0, false, 0, 0⟩ ∧
    (checkAlarms ⟨false, none, 0, false, 0, 0⟩ false
      ⟨"critical", "m", none, some 5⟩ 3).1.alarmType = some "sensor_failure" :=
  ⟨(C1_check_alarms_amended.1 ⟨false, none, 0, false, 0, 0⟩ false
      ⟨"critical", "m", some 20, some 5⟩ 3 rfl rfl (by decide) (by decide)).2,
   C1_check_alarms_amended.2.1 ⟨true, some "generic", 0, false, 0, 0⟩ false
      ⟨"critical", "m", some 20, some 5⟩ 3 rfl (by decide) (by decide),
   (C1_check_alarms_amended.2.2 ⟨false, none, 0, false, 0, 0⟩ false
      ⟨"critical", "m", none, some 5⟩ 3 (Or.inl rfl)).2⟩

/-! ### LED indicator update
`_update_led_status` (src/main.py 1078-1094); the `leds` dict holds
exactly the keys `rot`, `gelb`, `gruen` (src/main.py 540-544). -/

/-- The three status LEDs. -/
structure Leds where
  gruen : Bool
  gelb : Bool
  rot : Bool
deriving DecidableEq

/-- `led_map.get(risk_level, 'gelb')` over the literal dict
`{ok: gruen, warning: gelb, critical: rot, unknown: gelb}`. -/
def ledMapLookup (riskLevel : String) : String :=
  if riskLevel = "ok" then "gruen"
  else if riskLevel = "warning" then "gelb"
  else if riskLevel = "critical" then "rot"
  else if riskLevel = "unknown" then "gelb"
  else "gelb"

/-- `_update_led_status`: every LED is switched off, then the LED named
by the map is switched on (the previous LED state is discarded
entirely). -/
def updateLedStatus (_prev : Leds) (riskLevel : String) : Leds :=
  let cleared : Leds := ⟨false, false, false⟩
  let ledName := ledMapLookup riskLevel
  if ledName = "gruen" then { cleared with gruen := true }
  else if ledName = "gelb" then { cleared with gelb := true }
  else if ledName = "rot" then { cleared with rot := true }
  else cleared

/-- Number of LEDs currently on. -/
def Leds.onCount (l : Leds) : Nat :=
  (if l.gruen then 1 else 0) + (if l.gelb then 1 else 0) + (if l.rot then 1 else 0)

lemma ledMapLookup_default (riskLevel : String) (h1 : riskLevel ≠ "ok")
    (h2 : riskLevel ≠ "warning") (h3 : riskLevel ≠ "critical") :
    ledMapLookup riskLevel = "gelb" := by
  unfold ledMapLookup
  rw [if_neg h1, if_neg h2, if_neg h3, ite_self]

/-- C8: after the indicator-update step exactly one LED is on,
independent of the previous LED state, with the mapping `ok → gruen`,
`warning → gelb`, `critical → rot`, `unknown → gelb`, and any
unrecognised level also `gelb`. -/
theorem C8_led_update_exclusive :
    (∀ (prev : Leds) (risk : String), (updateLedStatus prev risk).onCount = 1) ∧
    (∀ (p q : Leds) (risk : String), updateLedStatus p risk = updateLedStatus q risk) ∧
    (∀ prev : Leds, updateLedStatus prev "ok" = ⟨true, false, false⟩) ∧
    (∀ prev : Leds, updateLedStatus prev "warning" = ⟨false, true, false⟩) ∧
    (∀ prev : Leds, updateLedStatus prev "critical" = ⟨false, false, true⟩) ∧
    (∀ prev : Leds, updateLedStatus prev "unknown" = ⟨false, true, false⟩) ∧
    (∀ (prev : Leds) (risk : String), risk ≠ "ok" → risk ≠ "warning" → risk ≠ "critical" →
      updateLedStatus prev risk = ⟨false, true, false⟩) := by
  have hdef : ∀ (prev : Leds) (risk : String), risk ≠ "ok" → risk ≠ "warning" →
      risk ≠ "critical" → updateLedStatus prev risk = ⟨false, true, false⟩ := by
    intro prev risk h1 h2 h3
    unfold updateLedStatus
    rw [ledMapLookup_default risk h1 h2 h3]
    rfl
  have hcount : ∀ (prev : Leds) (risk : String), (updateLedStatus prev risk).onCount = 1 := by
    intro prev risk
    by_cases h1 : risk = "ok"
    · rw [h1]; rfl
    by_cases h2 : risk = "warning"
    · rw [h2]; rfl
    by_cases h3 : risk = "critical"
    · rw [h3]; rfl
    rw [hdef prev risk h1 h2 h3]
    rfl
  exact ⟨hcount, fun p q risk => rfl, fun prev => rfl, fun prev => rfl, fun prev => rfl,
    fun prev => rfl, hdef⟩

/-- Witness for C8: the unrecognised level `degraded` lights only the
yellow LED, from a previous state with all LEDs on. -/
theorem C8_led_update_exclusive_witness :
    updateLedStatus ⟨true, true, true⟩ "degraded" = ⟨false, true, false⟩ ∧
    (updateLedStatus ⟨true, true, true⟩ "degraded").onCount = 1 :=
  ⟨C8_led_update_exclusive.2.2.2.2.2.2 ⟨true, true, true⟩ "degraded"
      (by decide) (by decide) (by decide),
   C8_led_update_exclusive.1 ⟨true, true, true⟩ "degraded"⟩

/-! ### Rotating CSV logger
`EnhancedDataLogger` (src/main.py 58-188; the trimmed
src/lib/core/logger.py copy lacks the rotation call).  The SD filesystem
is modelled as a map from path names to file contents; `String.length`
stands for the byte size `os.stat(...)[6]`.  The composed CSV data row
is passed in as `line` (its f-string float formatting is outside the
claims); `writeOk` models whether the final append raises. -/

/-- The filesystem: path name ↦ contents of the file, `none` if absent. -/
def FS : Type := String → Option String

/-- Create or overwrite a file. -/
def fsSet (fs : FS) (n : String) (c : String) : FS :=
  fun m => if m = n then some c else fs m

/-- Open in append mode (creating the file if absent) and write `s`. -/
def fsAppend (fs : FS) (n : String) (s : String) : FS :=
  fsSet fs n ((fs n).getD "" ++ s)

/-- `os.rename(old, new)`. -/
def fsRename (fs : FS) (old new : String) : FS :=
  fun m => if m = new then fs old else if m = old then none else fs m

/-- The configuration slice the logger reads from `params`. -/
structure LogParams where
  logFilePre : String
  logIntervalSek : Int
deriving DecidableEq

/-- `EnhancedDataLogger` state: params, `last_log_time`, `is_mounted`,
and the derived `max_file_size` / `max_files` limits. -/
structure LoggerState where
  params : LogParams
  lastLogTime : Int
  isMounted : Bool
  maxFileSize : Nat
  maxFiles : Nat
deriving DecidableEq

/-- The CSV header row written to every fresh log file. -/
def csvHeader : String :=
  "timestamp,temp_in,hum_in,dp_in,temp_out,hum_out,dp_out,temp_in_avg5,temp_out_avg5,status,trend_in,trend_out\n"

/-- `_get_current_log_file_path`. -/
def currentLogFilePath (s : LoggerState) : String :=
  "/sd/" ++ s.params.logFilePre ++ "_current.csv"

/-- Zero-padded decimal formatting (`f"{n:0wd}"`). -/
def padZeros (w : Nat) (n : Nat) : String :=
  let s := toString n
  String.mk (List.replicate (w - s.length) '0') ++ s

/-- The `time.localtime()` fields used by the rotated filename. -/
structure LocalTime where
  year : Nat
  month : Nat
  day : Nat
  hour : Nat
  minute : Nat
deriving DecidableEq

/-- The timestamp-suffixed rotation target
`/sd/<pre>_<YYYY>-<MM>-<DD>_<HHMM>.csv`. -/
def rotatedLogPath (s : LoggerState) (t : LocalTime) : String :=
  "/sd/" ++ s.params.logFilePre ++ "_" ++ padZeros 4 t.year ++ "-" ++ padZeros 2 t.month ++
    "-" ++ padZeros 2 t.day ++ "_" ++ padZeros 2 t.hour ++ padZeros 2 t.minute ++ ".csv"

/-- `_write_header`: opens the active file in `a+` mode (creating it) and
writes the header row when the file is empty (`tell() == 0`). -/
def writeHeader (s : LoggerState) (fs : FS) : FS :=
  if s.isMounted = false then fs
  else if (fs (currentLogFilePath s)).getD "" = "" then
    fsSet fs (currentLogFilePath s) csvHeader
  else fs

/-- `_rotate_log_if_needed`: when the active file exists and its size
exceeds `max_file_size`, renames it to the timestamp-suffixed name and
writes a fresh header; a missing active file (`OSError`) is a no-op. -/
def rotateLogIfNeeded (s : LoggerState) (fs : FS) (t : LocalTime) : FS :=
  if s.isMounted = false then fs
  else
    match fs (currentLogFilePath s) with
    | none => fs
    | some c =>
      if s.maxFileSize < c.length then
        writeHeader s (fsRename fs (currentLogFilePath s) (rotatedLogPath s t))
      else fs

/-- `log_data_async` (src/main.py 158-188): returns unchanged when not
mounted or when the log interval has not elapsed; otherwise rotates if
needed and appends the record, updating `last_log_time` only when the
write succeeds (`writeOk`; the `except` branch only prints). -/
def logDataAsync (s : LoggerState) (fs : FS) (now : Int) (t : LocalTime) (line : String)
    (writeOk : Bool) : LoggerState × FS :=
  if s.isMounted = false then (s, fs)
  else if now - s.lastLogTime < s.params.logIntervalSek then (s, fs)
  else
    let fs1 := rotateLogIfNeeded s fs t
    if writeOk then
      ({ s with lastLogTime := now }, fsAppend fs1 (currentLogFilePath s) line)
    else (s, fs1)

lemma fsSet_self (fs : FS) (n c : String) : fsSet fs n c n = some c := if_pos rfl

lemma fsSet_ne (fs : FS) (n c m : String) (h : m ≠ n) : fsSet fs n c m = fs m := if_neg h

lemma fsRename_new (fs : FS) (old new : String) : fsRename fs old new new = fs old :=
  if_pos rfl

lemma fsRename_old (fs : FS) (old new : String) (h : old ≠ new) :
    fsRename fs old new old = none := by
  unfold fsRename
  rw [if_neg h, if_pos rfl]

lemma fsRename_other (fs : FS) (old new m : String) (h1 : m ≠ new) (h2 : m ≠ old) :
    fsRename fs old new m = fs m := by
  unfold fsRename
  rw [if_neg h1, if_neg h2]

lemma rotateLogIfNeeded_rotates (s : LoggerState) (fs : FS) (t : LocalTime) (c : String)
    (hm : s.isMounted = true) (hcur : fs (currentLogFilePath s) = some c)
    (hsize : s.maxFileSize < c.length) (hne : rotatedLogPath s t ≠ currentLogFilePath s) :
    rotateLogIfNeeded s fs t =
      fsSet (fsRename fs (currentLogFilePath s) (rotatedLogPath s t))
        (currentLogFilePath s) csvHeader := by
  unfold rotateLogIfNeeded
  rw [if_neg (by simp [hm]), hcur]
  show (if s.maxFileSize < c.length then _ else _) = _
  rw [if_pos hsize]
  unfold writeHeader
  rw [if_neg (by simp [hm]),
    if_pos (by rw [fsRename_old fs _ _ (Ne.symm hne)]; rfl)]

set_option maxHeartbeats 1600000 in
/-- C4 counterexample: prefix `log`, `max_files = 1`, `max_file_size = 0`,
interval 10, a due write at time 10 on a filesystem holding two
already-rotated files and an oversize active file.  The call rotates the
active file to `/sd/log_2024-01-03_0000.csv` and writes the fresh header
plus record, but deletes nothing: all three rotated files remain, so the
claimed pruning to `max_files = 1` (oldest first) does not happen on the
log path. -/
theorem C4_rotation_counterexample :
    ∃ r : LoggerState × FS,
      logDataAsync ⟨⟨"log", 10⟩, 0, true, 0, 1⟩
        (fun n =>
          if n = "/sd/log_2024-01-01_0000.csv" then some "old1"
          else if n = "/sd/log_2024-01-02_0000.csv" then some "old2"
          else if n = "/sd/log_current.csv" then some "x" else none)
        10 ⟨2024, 1, 3, 0, 0⟩ "r" true = r ∧
      r.2 "/sd/log_2024-01-01_0000.csv" = some "old1" ∧
      r.2 "/sd/log_2024-01-02_0000.csv" = some "old2" ∧
      r.2 "/sd/log_2024-01-03_0000.csv" = some "x" ∧
      r.2 "/sd/log_current.csv" = some (csvHeader ++ "r") ∧
      r.1.maxFiles = 1 := by
  refine ⟨_, rfl, ?_, ?_, ?_, ?_, rfl⟩ <;> decide

/-- C4 amended: on a due write with the active file over the size limit,
`log_data_async` performs exactly one rotation — the timestamp-suffixed
file receives the old contents, the active file is recreated holding the
fresh header followed by the new record, every other file is untouched
(in particular nothing is deleted: retention pruning happens only in
`_init_sd_card`, not on the log path), and `last_log_time` is updated. -/
theorem C4_rotation_amended (s : LoggerState) (fs : FS) (now : Int) (t : LocalTime)
    (line c : String) (hm : s.isMounted = true)
    (hdue : s.params.logIntervalSek ≤ now - s.lastLogTime)
    (hcur : fs (currentLogFilePath s) = some c) (hsize : s.maxFileSize < c.length)
    (hne : rotatedLogPath s t ≠ currentLogFilePath s) :
    (logDataAsync s fs now t line true).2 (rotatedLogPath s t) = some c ∧
    (logDataAsync s fs now t line true).2 (currentLogFilePath s) = some (csvHeader ++ line) ∧
    (∀ n, n ≠ currentLogFilePath s → n ≠ rotatedLogPath s t →
      (logDataAsync s fs now t line true).2 n = fs n) ∧
    (logDataAsync s fs now t line true).1.lastLogTime = now := by
  have hrun : logDataAsync s fs now t line true =
      ({ s with lastLogTime := now },
       fsAppend (rotateLogIfNeeded s fs t) (currentLogFilePath s) line) := by
    unfold logDataAsync
    rw [if_neg (by simp [hm]), if_neg (not_lt.mpr hdue), if_pos rfl]
  have hrot := rotateLogIfNeeded_rotates s fs t c hm hcur hsize hne
  refine ⟨?_, ?_, fun n hn1 hn2 => ?_, by rw [hrun]⟩
  · rw [hrun]
    simp only [fsAppend]
    rw [fsSet_ne _ _ _ _ hne, hrot, fsSet_ne _ _ _ _ hne, fsRename_new]
    exact hcur
  · rw [hrun]
    simp only [fsAppend]
    rw [fsSet_self, hrot, fsSet_self]
    rfl
  · rw [hrun]
    simp only [fsAppend]
    rw [fsSet_ne _ _ _ _ hn1, hrot, fsSet_ne _ _ _ _ hn1,
      fsRename_other _ _ _ _ hn2 hn1]

set_option maxHeartbeats 1600000 in
/-- Witness for the amended C4 theorem: the concrete due-and-oversize
scenario of the counterexample, exercising every hypothesis. -/
theorem C4_rotation_amended_witness :
    (logDataAsync ⟨⟨"log", 10⟩, 0, true, 0, 1⟩
      (fun n => if n = "/sd/log_current.csv" then some "x" else none)
      10 ⟨2024, 1, 3, 0, 0⟩ "r" true).2 "/sd/log_2024-01-03_0000.csv" = some "x" ∧
    (logDataAsync ⟨⟨"log", 10⟩, 0, true, 0, 1⟩
      (fun n => if n = "/sd/log_current.csv" then some "x" else none)
      10 ⟨2024, 1, 3, 0, 0⟩ "r" true).1.lastLogTime = 10 := by
  have h := C4_rotation_amended ⟨⟨"log", 10⟩, 0, true, 0, 1⟩
    (fun n => if n = "/sd/log_current.csv" then some "x" else none)
    10 ⟨2024, 1, 3, 0, 0⟩ "r" "x" rfl (by decide) (by decide) (by decide) (by decide)
  have h1 : rotatedLogPath ⟨⟨"log", 10⟩, 0, true, 0, 1⟩ ⟨2024, 1, 3, 0, 0⟩ =
      "/sd/log_2024-01-03_0000.csv" := by decide
  exact ⟨h1 ▸ h.1, h.2.2.2⟩

/-- C9: when the record append fails, `log_data_async` swallows the
error (the embedding returns a state rather than an exception), the
logger state — in particular `last_log_time` — is unchanged, nothing is
appended (only the already-performed rotation check remains), and a
following eligible call with a working write appends the record and
updates `last_log_time`: at most the one failed record is lost. -/
theorem C9_log_write_failure (s : LoggerState) (fs : FS) (now now' : Int)
    (t t' : LocalTime) (line : String) (hm : s.isMounted = true)
    (hdue : s.params.logIntervalSek ≤ now - s.lastLogTime)
    (hdue' : s.params.logIntervalSek ≤ now' - s.lastLogTime) :
    (logDataAsync s fs now t line false).1 = s ∧
    (logDataAsync s fs now t line false).2 = rotateLogIfNeeded s fs t ∧
    (logDataAsync s (logDataAsync s fs now t line false).2 now' t' line true).1.lastLogTime =
      now' ∧
    (∃ c : String,
      (logDataAsync s (logDataAsync s fs now t line false).2 now' t' line true).2
        (currentLogFilePath s) = some (c ++ line)) := by
  have hfail : logDataAsync s fs now t line false = (s, rotateLogIfNeeded s fs t) := by
    unfold logDataAsync
    rw [if_neg (by simp [hm]), if_neg (not_lt.mpr hdue)]
    rfl
  have hretry : ∀ g : FS, logDataAsync s g now' t' line true =
      ({ s with lastLogTime := now' },
       fsAppend (rotateLogIfNeeded s g t') (currentLogFilePath s) line) := by
    intro g
    unfold logDataAsync
    rw [if_neg (by simp [hm]), if_neg (not_lt.mpr hdue'), if_pos rfl]
  refine ⟨by rw [hfail], by rw [hfail], by rw [hretry], ?_⟩
  rw [hretry]
  exact ⟨((rotateLogIfNeeded s (logDataAsync s fs now t line false).2 t')
      (currentLogFilePath s)).getD "", fsSet_self _ _ _⟩

set_option maxHeartbeats 1600000 in
/-- Witness for C9: mounted logger, interval 10, due at time 10 — the
failed call leaves `last_log_time = 0` and the retry at time 10 lands
the record. -/
theorem C9_log_write_failure_witness :
    (logDataAsync ⟨⟨"log", 10⟩, 0, true, 0, 1⟩ (fun _ => none)
      10 ⟨2024, 1, 3, 0, 0⟩ "r" false).1 = (⟨⟨"log", 10⟩, 0, true, 0, 1⟩ : LoggerState) ∧
    (logDataAsync ⟨⟨"log", 10⟩, 0, true, 0, 1⟩
      (logDataAsync ⟨⟨"log", 10⟩, 0, true, 0, 1⟩ (fun _ => none)
        10 ⟨2024, 1, 3, 0, 0⟩ "r" false).2
      10 ⟨2024, 1, 3, 0, 0⟩ "r" true).1.lastLogTime = 10 :=
  ⟨(C9_log_write_failure ⟨⟨"log", 10⟩, 0, true, 0, 1⟩ (fun _ => none) 10 10
      ⟨2024, 1, 3, 0, 0⟩ ⟨2024, 1, 3, 0, 0⟩ "r" rfl (by decide) (by decide)).1,
   (C9_log_write_failure ⟨⟨"log", 10⟩, 0, true, 0, 1⟩ (fun _ => none) 10 10
      ⟨2024, 1, 3, 0, 0⟩ ⟨2024, 1, 3, 0, 0⟩ "r" rfl (by decide) (by decide)).2.2.1⟩

end TauV5
